import Mathlib

/-!
Verification of the CliniPrompt session/workspace manager core.

Shallow embedding of `src/backend/src/models/tutorial_session.py`,
`src/backend/src/models/session_data.py` and
`src/backend/src/services/session_manager/__init__.py`.

Modelling conventions:
* wall-clock time is a `Nat` (seconds); every operation that calls
  `datetime.now()` in the source takes the current time as an explicit
  `now` argument; `timedelta(hours=h)` becomes `h * 3600` seconds;
* nondeterministic fresh identifiers (`uuid.uuid4()`) are explicit arguments;
* the filesystem under the storage root is a list of `StoredFile` records
  (session id, path relative to the session directory, byte size);
  directory existence for a session workspace is tracked in `workspaces`;
* a `bytes` stream read in 1 MiB chunks is a list of `StreamEvent`s: a
  `chunk n` is one successful `read` returning `n` bytes (an empty read,
  `n = 0`, terminates the loop as in the source), `ioFault` is a read or
  write that raises an OS-level exception;
* Python exceptions become `Except` results; an in-place mutating method
  becomes a function returning the updated value / manager state;
* the background thread started by `cleanup_with_grace_period` is modelled
  by recording the session id in `pending_cleanups`; the body that the
  thread runs after the grace period is `run_grace_period_check`;
* the float-valued `ResourceUsage` gauges of `SessionData` are not modelled
  (floating point, touched by no verified claim).
-/

namespace CliniPrompt

/-- Session workflow states (`WorkflowState` in `tutorial_session.py`). -/
inductive WorkflowState
  | INITIAL
  | AUDIO_UPLOADED
  | CONTENT_ADDED
  | PROCESSING
  | COMPLETED
  | ERROR
deriving DecidableEq, Repr, Fintype

/-- `TutorialSession` dataclass (user preferences carried opaquely;
they are never read by the operations under verification). -/
structure TutorialSession where
  session_id : String
  state : WorkflowState
  created_at : Nat
  last_updated : Nat
  expires_at : Nat
  user_agent : String
  workspace_path : Option String
deriving DecidableEq, Repr

/-- `TutorialSession.create_new`: fresh session in state `INITIAL`,
`expires_at = now + session_timeout_hours` hours. The source default for
`session_timeout_hours` is 4. -/
def TutorialSession.create_new (user_agent : String) (session_timeout_hours : Nat)
    (now : Nat) (session_id : String) : TutorialSession :=
  { session_id := session_id
    state := WorkflowState.INITIAL
    created_at := now
    last_updated := now
    expires_at := now + session_timeout_hours * 3600
    user_agent := user_agent
    workspace_path := none }

/-- `TutorialSession._is_valid_state_transition`: the legal-edge table. -/
def TutorialSession.is_valid_state_transition (current new_state : WorkflowState) : Bool :=
  let valid_transitions : List WorkflowState :=
    match current with
    | WorkflowState.INITIAL => [WorkflowState.AUDIO_UPLOADED, WorkflowState.ERROR]
    | WorkflowState.AUDIO_UPLOADED =>
        [WorkflowState.CONTENT_ADDED, WorkflowState.PROCESSING, WorkflowState.ERROR]
    | WorkflowState.CONTENT_ADDED => [WorkflowState.PROCESSING, WorkflowState.ERROR]
    | WorkflowState.PROCESSING => [WorkflowState.COMPLETED, WorkflowState.ERROR]
    | WorkflowState.COMPLETED => [WorkflowState.INITIAL, WorkflowState.ERROR]
    | WorkflowState.ERROR => [WorkflowState.PROCESSING, WorkflowState.INITIAL]
  valid_transitions.contains new_state

/-- `TutorialSession.update_state`: raises `ValueError` on an illegal
transition (before any mutation), otherwise sets `state` and `last_updated`. -/
def TutorialSession.update_state (s : TutorialSession) (new_state : WorkflowState)
    (now : Nat) : Except String TutorialSession :=
  if ¬ (TutorialSession.is_valid_state_transition s.state new_state = true) then
    Except.error "Invalid state transition"
  else
    Except.ok { s with state := new_state, last_updated := now }

/-- Run `update_state` the way a caller observes it: on the `ValueError`
the object is untouched (the source raises before assigning), so the pair
is (unchanged session, `false`); on success (updated session, `true`). -/
def TutorialSession.update_state_run (s : TutorialSession) (new_state : WorkflowState)
    (now : Nat) : TutorialSession × Bool :=
  match s.update_state new_state now with
  | Except.ok s2 => (s2, true)
  | Except.error _ => (s, false)

/-- `TutorialSession.is_expired`: `datetime.now() > expires_at`. -/
def TutorialSession.is_expired (s : TutorialSession) (now : Nat) : Bool :=
  decide (now > s.expires_at)

/-- `TutorialSession.extend_expiration`: `expires_at := now + additional_hours`
hours, `last_updated := now`. The source default for `additional_hours` is 4. -/
def TutorialSession.extend_expiration (s : TutorialSession) (additional_hours : Nat)
    (now : Nat) : TutorialSession :=
  { s with expires_at := now + additional_hours * 3600, last_updated := now }

/-- Processing status types (`ProcessingStatusType` in `session_data.py`). -/
inductive ProcessingStatusType
  | pending
  | processing
  | completed
  | error
deriving DecidableEq, Repr

/-- `ProcessingStatus` dataclass. `progress` is a Python `int` (may be
given out of range by a caller, hence `Int`); `processing_time_seconds`
is `int((now - start_time).total_seconds())`, a `Nat` under monotone time. -/
structure ProcessingStatus where
  task_id : String
  status : ProcessingStatusType
  progress : Int
  current_step : String
  start_time : Nat
  estimated_completion : Option Nat
  processing_time_seconds : Option Nat
  error_message : Option String
deriving DecidableEq, Repr

/-- `ProcessingStatus.create_new`. -/
def ProcessingStatus.create_new (current_step : String) (now : Nat)
    (task_id : String) : ProcessingStatus :=
  { task_id := task_id
    status := ProcessingStatusType.pending
    progress := 0
    current_step := current_step
    start_time := now
    estimated_completion := none
    processing_time_seconds := none
    error_message := none }

/-- `ProcessingStatus.update_progress`: clamps `progress` to 0..100; when the
raw argument is ≥ 100 sets `status = completed` and recomputes
`processing_time_seconds` from the clock. -/
def ProcessingStatus.update_progress (ps : ProcessingStatus) (progress : Int)
    (current_step : String) (now : Nat) : ProcessingStatus :=
  let ps1 := { ps with progress := max 0 (min 100 progress), current_step := current_step }
  if progress ≥ 100 then
    { ps1 with
        status := ProcessingStatusType.completed
        processing_time_seconds := some (now - ps1.start_time) }
  else
    ps1

/-- `ProcessingStatus.mark_error`: sets `status = error`, records the message
and recomputes `processing_time_seconds` from the clock. -/
def ProcessingStatus.mark_error (ps : ProcessingStatus) (error_message : String)
    (now : Nat) : ProcessingStatus :=
  { ps with
      status := ProcessingStatusType.error
      error_message := some error_message
      processing_time_seconds := some (now - ps.start_time) }

/-- `SessionData` dataclass (the float `resource_usage` gauges are omitted,
see the module header). Default field values as in the source. -/
structure SessionData where
  current_step : String
  progress_percentage : Int
  error_log : List String
  processing_status : Option ProcessingStatus
deriving DecidableEq, Repr

/-- `SessionData()` with all defaults, as constructed by the manager. -/
def SessionData.default : SessionData :=
  { current_step := "Session initialized"
    progress_percentage := 0
    error_log := []
    processing_status := none }

/-- The error taxonomy of `session_manager/__init__.py` (only the kinds the
verified operations can produce). -/
inductive SMError
  | sessionNotFound (msg : String)
  | sessionStorage (msg : String)
  | concurrencyLimit (msg : String)
  | storageQuotaExceeded (msg : String)
deriving DecidableEq, Repr

/-- One regular file under the storage root: the session directory it lives
in, its path relative to that directory, and its size in bytes. -/
structure StoredFile where
  session_id : String
  relpath : String
  size : Nat
deriving DecidableEq, Repr

/-- State of an `EnhancedSessionManager` instance plus the filesystem it
owns.  `processing_files` models the `defaultdict(set)` as a total function
(an absent key and an empty set are indistinguishable in the source, since
lookup auto-creates an empty set).  `pending_cleanups` records sessions with
a grace-period cleanup thread in flight, `metadata_saved` the sessions whose
`metadata/session.json` has been written. -/
structure ManagerState where
  active_sessions : List (String × TutorialSession)
  session_data : List (String × SessionData)
  processing_files : String → List String
  files : List StoredFile
  workspaces : List String
  pending_cleanups : List String
  metadata_saved : List String

/-- Manager constants, as in the source. -/
def MAX_CONCURRENT_SESSIONS : Nat := 5

/-- 100 MiB per-session storage ceiling. -/
def MAX_SESSION_STORAGE : Nat := 100 * 1024 * 1024

/-- 1 GiB global storage ceiling. -/
def MAX_TOTAL_STORAGE : Nat := 1024 * 1024 * 1024

/-- 1 MiB streaming chunk size. -/
def STREAMING_CHUNK_SIZE : Nat := 1024 * 1024

/-- 4-hour session timeout, in seconds. -/
def SESSION_TIMEOUT : Nat := 14400

/-- First-match lookup in an association list keyed by session id
(Python dict lookup; keys are unique in the source, inserts are modelled
by consing so the first match is the current binding). -/
def lookupA {α : Type} : List (String × α) → String → Option α
  | [], _ => none
  | (k2, v) :: rest, k => if k2 = k then some v else lookupA rest k

/-- Deletion of a key from an association list (Python `del d[k]`). -/
def removeA {α : Type} : List (String × α) → String → List (String × α)
  | [], _ => []
  | (k2, v) :: rest, k =>
      if k2 = k then removeA rest k else (k2, v) :: removeA rest k

/-- Remove every occurrence of a string from a list. -/
def removeAll : List String → String → List String
  | [], _ => []
  | y :: rest, x => if y = x then removeAll rest x else y :: removeAll rest x

/-- Size of the file at (session, relative path), when it exists. -/
def lookupFile : List StoredFile → String → String → Option Nat
  | [], _, _ => none
  | f :: rest, sid, relpath =>
      if f.session_id = sid ∧ f.relpath = relpath then some f.size
      else lookupFile rest sid relpath

/-- Create or overwrite the file at (session, relative path). -/
def setFile : List StoredFile → String → String → Nat → List StoredFile
  | [], sid, relpath, size => [⟨sid, relpath, size⟩]
  | f :: rest, sid, relpath, size =>
      if f.session_id = sid ∧ f.relpath = relpath then ⟨sid, relpath, size⟩ :: rest
      else f :: setFile rest sid relpath size

/-- Delete the file at (session, relative path) (`Path.unlink`). -/
def removeFile : List StoredFile → String → String → List StoredFile
  | [], _, _ => []
  | f :: rest, sid, relpath =>
      if f.session_id = sid ∧ f.relpath = relpath then removeFile rest sid relpath
      else f :: removeFile rest sid relpath

/-- Delete every file under one session directory (`shutil.rmtree`). -/
def removeSessionFiles : List StoredFile → String → List StoredFile
  | [], _ => []
  | f :: rest, sid =>
      if f.session_id = sid then removeSessionFiles rest sid
      else f :: removeSessionFiles rest sid

/-- `_get_session_storage_size`: recursive byte size of one session's
subtree (`rglob` summing `st_size` of regular files). -/
def session_storage_size : List StoredFile → String → Nat
  | [], _ => 0
  | f :: rest, sid =>
      (if f.session_id = sid then f.size else 0) + session_storage_size rest sid

/-- `_get_total_storage_size`: recursive byte size of the whole storage root. -/
def total_storage_size : List StoredFile → Nat
  | [] => 0
  | f :: rest => f.size + total_storage_size rest

/-- One event of a binary stream consumed in `STREAMING_CHUNK_SIZE` reads:
`chunk n` is a successful read returning `n` bytes (`n = 0` is the empty
read that ends the stream), `ioFault` is a read that raises. -/
inductive StreamEvent
  | chunk (size : Nat)
  | ioFault (msg : String)
deriving DecidableEq, Repr

/-- Total number of bytes the stream can deliver. -/
def sumBytes : List StreamEvent → Nat
  | [] => 0
  | StreamEvent.chunk n :: rest => n + sumBytes rest
  | StreamEvent.ioFault _ :: rest => sumBytes rest

/-- `true` exactly on a successful, non-empty chunk. -/
def isPositiveChunk : StreamEvent → Bool
  | StreamEvent.chunk n => decide (0 < n)
  | StreamEvent.ioFault _ => false

/-- `_estimate_stream_size`: the source is a stub that returns 0
("would need proper implementation"). -/
def estimate_stream_size (_stream : List StreamEvent) : Nat := 0

/-- `_cleanup_oldest_sessions`: the source is a stub that returns 0 and
frees nothing ("Simplified implementation - would need proper age
tracking"). -/
def cleanup_oldest_sessions (st : ManagerState) (_space_needed : Nat) :
    ManagerState × Nat :=
  (st, 0)

/-- `_load_session_from_storage`: the source reads the metadata file but
unconditionally returns `False` ("For now, don't support persistence"). -/
def load_session_from_storage (_st : ManagerState) (_session_id : String) : Bool :=
  false

/-- `can_cleanup_session`: the busy-set for the session is empty. -/
def can_cleanup_session (st : ManagerState) (session_id : String) : Bool :=
  decide ((st.processing_files session_id).length = 0)

/-- `mark_file_processing`: add the composite `"path:service"` tag to the
session's busy-set; returns `True`. -/
def mark_file_processing (st : ManagerState) (session_id file_path service_name : String) :
    ManagerState × Bool :=
  let tag := file_path ++ ":" ++ service_name
  ({ st with
      processing_files := fun k =>
        if k = session_id then
          if tag ∈ st.processing_files session_id then st.processing_files session_id
          else tag :: st.processing_files session_id
        else st.processing_files k },
   true)

/-- `unmark_file_processing`: `set.discard` of the composite tag; returns
`True`. -/
def unmark_file_processing (st : ManagerState) (session_id file_path service_name : String) :
    ManagerState × Bool :=
  let tag := file_path ++ ":" ++ service_name
  ({ st with
      processing_files := fun k =>
        if k = session_id then (st.processing_files session_id).filter (fun t => t ≠ tag)
        else st.processing_files k },
   true)

/-- `check_storage_quota`: per-session ceiling first; on a prospective
global-ceiling breach, run the (stub) oldest-session eviction and return the
recheck of the global ceiling. -/
def check_storage_quota (st : ManagerState) (session_id : String) (file_size : Nat) :
    ManagerState × Bool :=
  let current_session_size := session_storage_size st.files session_id
  let current_total_size := total_storage_size st.files
  if current_session_size + file_size > MAX_SESSION_STORAGE then
    (st, false)
  else if current_total_size + file_size > MAX_TOTAL_STORAGE then
    let st2 := (cleanup_oldest_sessions st file_size).1
    (st2, decide (total_storage_size st2.files + file_size ≤ MAX_TOTAL_STORAGE))
  else
    (st, true)

/-- `cleanup_session_files`: refuse when not forced and the busy-set is
non-empty; otherwise remove the session's whole directory subtree. -/
def cleanup_session_files (st : ManagerState) (session_id : String) (force : Bool) :
    ManagerState × Bool :=
  if force = false ∧ can_cleanup_session st session_id = false then
    (st, false)
  else
    ({ st with
        files := removeSessionFiles st.files session_id
        workspaces := removeAll st.workspaces session_id
        metadata_saved := removeAll st.metadata_saved session_id },
     true)

/-- `cleanup_with_grace_period`: busy session → start the deferred
background check (recorded in `pending_cleanups`); idle session → clean up
immediately. -/
def cleanup_with_grace_period (st : ManagerState) (session_id : String) : ManagerState :=
  if can_cleanup_session st session_id = false then
    { st with pending_cleanups := session_id :: st.pending_cleanups }
  else
    (cleanup_session_files st session_id false).1

/-- The body of the deferred thread of `cleanup_with_grace_period`, run once
the grace period elapses: re-evaluate `can_cleanup` and only then
force-delete the workspace; in either case the thread ends. -/
def run_grace_period_check (st : ManagerState) (session_id : String) : ManagerState :=
  let st2 := { st with pending_cleanups := removeAll st.pending_cleanups session_id }
  if can_cleanup_session st2 session_id = true then
    (cleanup_session_files st2 session_id true).1
  else
    st2

/-- `end_session`: busy session → defer to the grace-period teardown and
report success; idle session → drop the three in-memory entries and delete
the workspace subtree. -/
def end_session (st : ManagerState) (session_id : String) : ManagerState × Bool :=
  if can_cleanup_session st session_id = false then
    (cleanup_with_grace_period st session_id, true)
  else
    let st1 := { st with
        active_sessions := removeA st.active_sessions session_id
        session_data := removeA st.session_data session_id
        processing_files := fun k =>
          if k = session_id then [] else st.processing_files k }
    cleanup_session_files st1 session_id false

/-- `create_session`: reject at `MAX_CONCURRENT_SESSIONS` live entries;
otherwise create the session (4-hour default timeout), provision its
workspace, store an empty `SessionData` and persist metadata. -/
def create_session (st : ManagerState) (user_agent : String) (now : Nat)
    (new_id : String) : ManagerState × Except SMError String :=
  if st.active_sessions.length ≥ MAX_CONCURRENT_SESSIONS then
    (st, Except.error (SMError.concurrencyLimit "Maximum 5 concurrent sessions"))
  else
    let session0 := TutorialSession.create_new user_agent 4 now new_id
    let session := { session0 with workspace_path := some new_id }
    ({ st with
        workspaces := if new_id ∈ st.workspaces then st.workspaces else new_id :: st.workspaces
        active_sessions := (new_id, session) :: st.active_sessions
        session_data := (new_id, SessionData.default) :: st.session_data
        metadata_saved :=
          if new_id ∈ st.metadata_saved then st.metadata_saved
          else new_id :: st.metadata_saved },
     Except.ok new_id)

/-- `get_session`: absent id → (after the always-failing storage reload)
`SessionNotFoundError`; expired record → `end_session` side effect, then
`SessionNotFoundError`; otherwise the session. -/
def get_session (st : ManagerState) (session_id : String) (now : Nat) :
    ManagerState × Except SMError TutorialSession :=
  match lookupA st.active_sessions session_id with
  | none =>
      if load_session_from_storage st session_id = true then
        -- unreachable: the storage loader never succeeds in the source
        (st, Except.error (SMError.sessionNotFound "Session not found"))
      else
        (st, Except.error (SMError.sessionNotFound "Session not found"))
  | some session =>
      if TutorialSession.is_expired session now = true then
        ((end_session st session_id).1,
         Except.error (SMError.sessionNotFound "Session has expired"))
      else
        (st, Except.ok session)

/-- `get_session_data`: silently create, store and return a default
`SessionData` when none exists; no existence or expiry check, no error. -/
def get_session_data (st : ManagerState) (session_id : String) :
    ManagerState × SessionData :=
  match lookupA st.session_data session_id with
  | none =>
      ({ st with session_data := (session_id, SessionData.default) :: st.session_data },
       SessionData.default)
  | some d => (st, d)

/-- Destination path of `save_large_file` relative to the session directory. -/
def dest_relpath (file_type filename : String) : String :=
  "files/" ++ file_type ++ "/" ++ filename

/-- The streaming write loop of `save_large_file`: read a chunk, append it,
and the instant `total_written` exceeds `MAX_SESSION_STORAGE` unlink the
partial file and raise; a read fault raises with the file still on disk. -/
def stream_write (files : List StoredFile) (sid relpath : String) (total_written : Nat) :
    List StreamEvent → List StoredFile × Except String Nat
  | [] => (files, Except.ok total_written)
  | StreamEvent.chunk n :: rest =>
      if n = 0 then
        -- `if not chunk: break`
        (files, Except.ok total_written)
      else
        let total2 := total_written + n
        let files2 := setFile files sid relpath total2
        if total2 > MAX_SESSION_STORAGE then
          (removeFile files2 sid relpath, Except.error "File size exceeded during upload")
        else
          stream_write files2 sid relpath total2 rest
  | StreamEvent.ioFault msg :: _ => (files, Except.error msg)

/-- `save_large_file`: zero-size quota pre-check (the size estimator is a
stub), open-and-truncate the destination, stream in 1 MiB chunks; every
exception of the write block — the mid-stream `StorageQuotaExceededError`
included — is caught, the partial file (when still present) unlinked, and a
`SessionStorageError` wrapping the original message raised instead. -/
def save_large_file (st : ManagerState) (session_id : String)
    (stream : List StreamEvent) (file_type filename : String) :
    ManagerState × Except SMError String :=
  let relpath := dest_relpath file_type filename
  let file_size := estimate_stream_size stream
  let st1 := (check_storage_quota st session_id file_size).1
  if (check_storage_quota st session_id file_size).2 = false then
    (st1, Except.error (SMError.storageQuotaExceeded "File would exceed storage quota"))
  else
    -- `open(file_path, 'wb')` truncates any existing destination file
    let files0 := setFile st1.files session_id relpath 0
    match stream_write files0 session_id relpath 0 stream with
    | (files1, Except.ok _) =>
        ({ st1 with files := files1 },
         Except.ok ("sessions/" ++ session_id ++ "/" ++ relpath))
    | (files1, Except.error msg) =>
        let files2 :=
          if (lookupFile files1 session_id relpath).isSome then
            removeFile files1 session_id relpath
          else files1
        ({ st1 with files := files2 },
         Except.error (SMError.sessionStorage ("Failed to save file: " ++ msg)))

/-- Decidable equality of `Except` results, for evaluating the operations
on concrete inputs. -/
instance {ε α : Type} [DecidableEq ε] [DecidableEq α] : DecidableEq (Except ε α) := fun a b =>
  match a, b with
  | Except.ok x, Except.ok y =>
      if h : x = y then isTrue (by rw [h]) else isFalse (by simp [h])
  | Except.error x, Except.error y =>
      if h : x = y then isTrue (by rw [h]) else isFalse (by simp [h])
  | Except.ok _, Except.error _ => isFalse (by simp)
  | Except.error _, Except.ok _ => isFalse (by simp)

/-- The legal-edge table exactly as the specification enumerates it
(§4.2); to be compared against the source's
`TutorialSession.is_valid_state_transition`. -/
def legal_edges_spec : List (WorkflowState × WorkflowState) :=
  [(WorkflowState.INITIAL, WorkflowState.AUDIO_UPLOADED),
   (WorkflowState.INITIAL, WorkflowState.ERROR),
   (WorkflowState.AUDIO_UPLOADED, WorkflowState.CONTENT_ADDED),
   (WorkflowState.AUDIO_UPLOADED, WorkflowState.PROCESSING),
   (WorkflowState.AUDIO_UPLOADED, WorkflowState.ERROR),
   (WorkflowState.CONTENT_ADDED, WorkflowState.PROCESSING),
   (WorkflowState.CONTENT_ADDED, WorkflowState.ERROR),
   (WorkflowState.PROCESSING, WorkflowState.COMPLETED),
   (WorkflowState.PROCESSING, WorkflowState.ERROR),
   (WorkflowState.COMPLETED, WorkflowState.INITIAL),
   (WorkflowState.COMPLETED, WorkflowState.ERROR),
   (WorkflowState.ERROR, WorkflowState.PROCESSING),
   (WorkflowState.ERROR, WorkflowState.INITIAL)]

/-- The source transition table coincides with the specification's
legal-edge enumeration on all 36 state pairs. -/
theorem is_valid_iff_legal_edge : ∀ c n : WorkflowState,
    TutorialSession.is_valid_state_transition c n = true ↔ (c, n) ∈ legal_edges_spec := by
  decide

/-- Claim C1: the transition operation succeeds iff the (current, requested)
pair is a legal edge of the §4.2 table; on any other pair it fails, leaves
the session unchanged, and repeating the same illegal pair fails again. -/
theorem transition_legal_edges (s : TutorialSession) (ns : WorkflowState) (now now2 : Nat) :
    ((s.update_state_run ns now).2 = true ↔ (s.state, ns) ∈ legal_edges_spec) ∧
    ((s.state, ns) ∉ legal_edges_spec →
      (s.update_state_run ns now).1 = s ∧
      ((s.update_state_run ns now).1.update_state_run ns now2).2 = false) := by
  by_cases h : TutorialSession.is_valid_state_transition s.state ns = true
  · refine ⟨⟨fun _ => (is_valid_iff_legal_edge s.state ns).mp h, fun _ => ?_⟩, fun hmem => ?_⟩
    · simp [TutorialSession.update_state_run, TutorialSession.update_state, h]
    · exact absurd ((is_valid_iff_legal_edge s.state ns).mp h) hmem
  · have hfst : (s.update_state_run ns now).1 = s := by
      simp [TutorialSession.update_state_run, TutorialSession.update_state, h]
    refine ⟨⟨fun hsucc => ?_, fun hmem => ?_⟩, fun _ => ⟨hfst, ?_⟩⟩
    · exfalso
      simp [TutorialSession.update_state_run, TutorialSession.update_state, h] at hsucc
    · exact absurd ((is_valid_iff_legal_edge s.state ns).mpr hmem) h
    · rw [hfst]
      simp [TutorialSession.update_state_run, TutorialSession.update_state, h]

/-- Witness for C1 at a concrete illegal pair: from `AUDIO_UPLOADED`,
requesting `COMPLETED` is not a legal edge, the session is unchanged and a
repeat fails again. -/
theorem transition_legal_edges_witness :
    ((TutorialSession.update_state_run
        { session_id := "w1", state := WorkflowState.AUDIO_UPLOADED, created_at := 0,
          last_updated := 0, expires_at := 14400, user_agent := "", workspace_path := none }
        WorkflowState.COMPLETED 7).1 =
      { session_id := "w1", state := WorkflowState.AUDIO_UPLOADED, created_at := 0,
        last_updated := 0, expires_at := 14400, user_agent := "", workspace_path := none }) ∧
    ((TutorialSession.update_state_run
        { session_id := "w1", state := WorkflowState.AUDIO_UPLOADED, created_at := 0,
          last_updated := 0, expires_at := 14400, user_agent := "", workspace_path := none }
        WorkflowState.COMPLETED 7).1.update_state_run WorkflowState.COMPLETED 8).2 = false :=
  (transition_legal_edges
    { session_id := "w1", state := WorkflowState.AUDIO_UPLOADED, created_at := 0,
      last_updated := 0, expires_at := 14400, user_agent := "", workspace_path := none }
    WorkflowState.COMPLETED 7 8).2 (by decide)

/-- Deleting a key from the table makes its lookup fail. -/
theorem lookupA_removeA {α : Type} (l : List (String × α)) (k : String) :
    lookupA (removeA l k) k = none := by
  induction l with
  | nil => rfl
  | cons p rest ih =>
      obtain ⟨k2, v⟩ := p
      by_cases h : k2 = k
      · simp [removeA, h, ih]
      · simp [removeA, lookupA, h, ih]

/-- After `rmtree` of a session directory no file of that session remains. -/
theorem mem_removeSessionFiles (files : List StoredFile) (sid : String) :
    ∀ f ∈ removeSessionFiles files sid, f.session_id ≠ sid := by
  induction files with
  | nil => intro f hf; cases hf
  | cons g rest ih =>
      by_cases h : g.session_id = sid
      · simpa [removeSessionFiles, h] using ih
      · intro f hf
        simp only [removeSessionFiles, h, if_neg] at hf
        rcases List.mem_cons.mp hf with rfl | hf2
        · exact h
        · exact ih f hf2

/-- Removing all occurrences of an element really removes it. -/
theorem not_mem_removeAll (l : List String) (x : String) : x ∉ removeAll l x := by
  induction l with
  | nil => simp [removeAll]
  | cons y rest ih =>
      by_cases h : y = x
      · simpa [removeAll, h] using ih
      · intro hc
        simp only [removeAll, h, if_neg] at hc
        rcases List.mem_cons.mp hc with rfl | hc2
        · exact h rfl
        · exact ih hc2

/-- Unlinking a file makes its lookup fail. -/
theorem lookupFile_removeFile (files : List StoredFile) (sid relpath : String) :
    lookupFile (removeFile files sid relpath) sid relpath = none := by
  induction files with
  | nil => rfl
  | cons f rest ih =>
      by_cases h : f.session_id = sid ∧ f.relpath = relpath
      · simp [removeFile, h, ih]
      · simp [removeFile, lookupFile, h, ih]

/-- The busy-set is empty exactly when `can_cleanup_session` says so. -/
theorem can_cleanup_iff (st : ManagerState) (sid : String) :
    can_cleanup_session st sid = true ↔ st.processing_files sid = [] := by
  simp [can_cleanup_session, List.length_eq_zero]

/-- Claim C9: marking an already-marked (path, consumer) pair and unmarking
an already-absent pair leave every busy-set unchanged, and `can_cleanup`
holds iff the session's busy-set is empty. -/
theorem busy_marker_idempotent (st : ManagerState) (sid file_path service_name : String) :
    ((file_path ++ ":" ++ service_name) ∈ st.processing_files sid →
       ∀ k, (mark_file_processing st sid file_path service_name).1.processing_files k =
         st.processing_files k) ∧
    ((file_path ++ ":" ++ service_name) ∉ st.processing_files sid →
       ∀ k, (unmark_file_processing st sid file_path service_name).1.processing_files k =
         st.processing_files k) ∧
    (can_cleanup_session st sid = true ↔ st.processing_files sid = []) := by
  refine ⟨fun hmem k => ?_, fun hmem k => ?_, can_cleanup_iff st sid⟩
  · by_cases hk : k = sid
    · subst hk; simp [mark_file_processing, hmem]
    · simp [mark_file_processing, hk]
  · by_cases hk : k = sid
    · subst hk
      simp only [unmark_file_processing, if_pos rfl]
      apply List.filter_eq_self.mpr
      intro t ht
      simp only [decide_eq_true_eq]
      exact fun hc => hmem (hc ▸ ht)
    · simp [unmark_file_processing, hk]

/-- Witness for C9: re-marking a pair already in the busy-set leaves the
busy-set of that session unchanged. -/
theorem busy_marker_idempotent_witness :
    (mark_file_processing
        { active_sessions := [], session_data := [],
          processing_files := fun k => if k = "s" then ["a.wav:tts"] else [],
          files := [], workspaces := [], pending_cleanups := [], metadata_saved := [] }
        "s" "a.wav" "tts").1.processing_files "s" =
      (fun k => if k = "s" then ["a.wav:tts"] else ([] : List String)) "s" :=
  (busy_marker_idempotent
      { active_sessions := [], session_data := [],
        processing_files := fun k => if k = "s" then ["a.wav:tts"] else [],
        files := [], workspaces := [], pending_cleanups := [], metadata_saved := [] }
      "s" "a.wav" "tts").1 (by decide) "s"

/-- `end_session` on a busy session only schedules the deferred cleanup. -/
theorem end_session_busy (st : ManagerState) (sid : String)
    (h : st.processing_files sid ≠ []) :
    end_session st sid = ({ st with pending_cleanups := sid :: st.pending_cleanups }, true) := by
  have hc : can_cleanup_session st sid = false := by
    cases hcc : can_cleanup_session st sid with
    | false => rfl
    | true => exact absurd ((can_cleanup_iff st sid).mp hcc) h
  simp only [end_session]
  rw [if_pos hc]
  simp only [cleanup_with_grace_period]
  rw [if_pos hc]

/-- `end_session` on an idle session drops all three in-memory entries and
deletes the workspace subtree. -/
theorem end_session_idle (st : ManagerState) (sid : String)
    (h : st.processing_files sid = []) :
    end_session st sid =
      ({ active_sessions := removeA st.active_sessions sid
         session_data := removeA st.session_data sid
         processing_files := fun k => if k = sid then [] else st.processing_files k
         files := removeSessionFiles st.files sid
         workspaces := removeAll st.workspaces sid
         pending_cleanups := st.pending_cleanups
         metadata_saved := removeAll st.metadata_saved sid }, true) := by
  have hc : can_cleanup_session st sid = true := (can_cleanup_iff st sid).mpr h
  have hc1 : can_cleanup_session
      { st with
          active_sessions := removeA st.active_sessions sid
          session_data := removeA st.session_data sid
          processing_files := fun k => if k = sid then [] else st.processing_files k } sid = true :=
    (can_cleanup_iff _ sid).mpr (by simp)
  simp only [end_session]
  rw [if_neg (by simp [hc])]
  show cleanup_session_files
      { st with
          active_sessions := removeA st.active_sessions sid
          session_data := removeA st.session_data sid
          processing_files := fun k => if k = sid then [] else st.processing_files k } sid false = _
  simp only [cleanup_session_files]
  rw [if_neg (by simp [hc1])]

/-- Claim C2: ending a session with a non-empty busy-set deletes nothing on
disk, reports success and defers to the grace-period check; ending an idle
session removes it from all in-memory tables and deletes its workspace
subtree; the deferred check deletes the workspace once the busy-set is
empty. -/
theorem end_session_busy_and_idle (st : ManagerState) (sid : String) :
    (st.processing_files sid ≠ [] →
       (end_session st sid).2 = true ∧
       (end_session st sid).1.files = st.files ∧
       (end_session st sid).1.workspaces = st.workspaces ∧
       sid ∈ (end_session st sid).1.pending_cleanups) ∧
    (st.processing_files sid = [] →
       (end_session st sid).2 = true ∧
       lookupA (end_session st sid).1.active_sessions sid = none ∧
       lookupA (end_session st sid).1.session_data sid = none ∧
       (end_session st sid).1.processing_files sid = [] ∧
       sid ∉ (end_session st sid).1.workspaces ∧
       (∀ f ∈ (end_session st sid).1.files, f.session_id ≠ sid)) ∧
    (∀ st2 : ManagerState, st2.processing_files sid = [] →
       sid ∉ (run_grace_period_check st2 sid).workspaces ∧
       (∀ f ∈ (run_grace_period_check st2 sid).files, f.session_id ≠ sid)) := by
  refine ⟨fun hbusy => ?_, fun hidle => ?_, fun st2 hidle2 => ?_⟩
  · rw [end_session_busy st sid hbusy]
    exact ⟨rfl, rfl, rfl, List.mem_cons_self sid _⟩
  · rw [end_session_idle st sid hidle]
    exact ⟨rfl, lookupA_removeA _ _, lookupA_removeA _ _, by simp,
      not_mem_removeAll _ _, mem_removeSessionFiles _ _⟩
  · have hc : can_cleanup_session
        { st2 with pending_cleanups := removeAll st2.pending_cleanups sid } sid = true :=
      (can_cleanup_iff _ sid).mpr hidle2
    simp only [run_grace_period_check]
    rw [if_pos hc]
    simp only [cleanup_session_files]
    rw [if_neg (by simp)]
    exact ⟨not_mem_removeAll _ _, mem_removeSessionFiles _ _⟩

/-- Witness for C2 at a concrete busy session: `end_session` reports
success, leaves files and workspace intact, and schedules the deferred
cleanup. -/
theorem end_session_busy_and_idle_witness :
    ({ active_sessions := [], session_data := [],
       processing_files := fun k => if k = "s" then ["f.wav:stt"] else [],
       files := [⟨"s", "files/audio/original/f.wav", 5⟩], workspaces := ["s"],
       pending_cleanups := [], metadata_saved := ["s"] } : ManagerState).processing_files "s" ≠ [] ∧
    ((end_session
        { active_sessions := [], session_data := [],
          processing_files := fun k => if k = "s" then ["f.wav:stt"] else [],
          files := [⟨"s", "files/audio/original/f.wav", 5⟩], workspaces := ["s"],
          pending_cleanups := [], metadata_saved := ["s"] } "s").2 = true ∧
     (end_session
        { active_sessions := [], session_data := [],
          processing_files := fun k => if k = "s" then ["f.wav:stt"] else [],
          files := [⟨"s", "files/audio/original/f.wav", 5⟩], workspaces := ["s"],
          pending_cleanups := [], metadata_saved := ["s"] } "s").1.files =
       ({ active_sessions := [], session_data := [],
          processing_files := fun k => if k = "s" then ["f.wav:stt"] else [],
          files := [⟨"s", "files/audio/original/f.wav", 5⟩], workspaces := ["s"],
          pending_cleanups := [], metadata_saved := ["s"] } : ManagerState).files ∧
     (end_session
        { active_sessions := [], session_data := [],
          processing_files := fun k => if k = "s" then ["f.wav:stt"] else [],
          files := [⟨"s", "files/audio/original/f.wav", 5⟩], workspaces := ["s"],
          pending_cleanups := [], metadata_saved := ["s"] } "s").1.workspaces =
       ({ active_sessions := [], session_data := [],
          processing_files := fun k => if k = "s" then ["f.wav:stt"] else [],
          files := [⟨"s", "files/audio/original/f.wav", 5⟩], workspaces := ["s"],
          pending_cleanups := [], metadata_saved := ["s"] } : ManagerState).workspaces ∧
     "s" ∈ (end_session
        { active_sessions := [], session_data := [],
          processing_files := fun k => if k = "s" then ["f.wav:stt"] else [],
          files := [⟨"s", "files/audio/original/f.wav", 5⟩], workspaces := ["s"],
          pending_cleanups := [], metadata_saved := ["s"] } "s").1.pending_cleanups) :=
  ⟨by decide,
   (end_session_busy_and_idle
      { active_sessions := [], session_data := [],
        processing_files := fun k => if k = "s" then ["f.wav:stt"] else [],
        files := [⟨"s", "files/audio/original/f.wav", 5⟩], workspaces := ["s"],
        pending_cleanups := [], metadata_saved := ["s"] } "s").1 (by decide)⟩

/-- An expired session record (deadline 10, clock at 20) whose busy-set
still holds one tag; used to exercise `get_session` on expired access. -/
def c6mgr : ManagerState :=
  { active_sessions :=
      [("s", { session_id := "s", state := WorkflowState.INITIAL, created_at := 0,
               last_updated := 0, expires_at := 10, user_agent := "",
               workspace_path := some "s" })]
    session_data := [("s", SessionData.default)]
    processing_files := fun k => if k = "s" then ["a.wav:stt"] else []
    files := []
    workspaces := ["s"]
    pending_cleanups := []
    metadata_saved := ["s"] }

/-- Counterexample to C6 as stated: on an expired session whose busy-set is
non-empty, `get_session` raises `SessionNotFound` but the session is NOT
evicted from the registry — the internal `end_session` call only schedules
the deferred cleanup and leaves the in-memory entry in place. -/
theorem get_session_expired_not_evicted :
    (get_session c6mgr "s" 20).2 =
      Except.error (SMError.sessionNotFound "Session has expired") ∧
    (lookupA (get_session c6mgr "s" 20).1.active_sessions "s").isSome = true := by
  decide

/-- Claim C6 (amended): `get` fails with `SessionNotFound` on an absent id;
on an expired record it fails with `SessionNotFound` after attempting to
end the session — the record is evicted only when its busy-set is empty,
otherwise it stays in the table and a deferred cleanup is scheduled. -/
theorem get_session_not_found (st : ManagerState) (sid : String) (now : Nat) :
    (lookupA st.active_sessions sid = none →
       get_session st sid now =
         (st, Except.error (SMError.sessionNotFound "Session not found"))) ∧
    (∀ s, lookupA st.active_sessions sid = some s →
       TutorialSession.is_expired s now = true →
       (get_session st sid now).2 =
         Except.error (SMError.sessionNotFound "Session has expired") ∧
       (st.processing_files sid = [] →
          lookupA (get_session st sid now).1.active_sessions sid = none) ∧
       (st.processing_files sid ≠ [] →
          (get_session st sid now).1.active_sessions = st.active_sessions ∧
          sid ∈ (get_session st sid now).1.pending_cleanups)) := by
  refine ⟨fun habs => ?_, fun s hsome hexp => ?_⟩
  · simp [get_session, habs, load_session_from_storage]
  · have hget : get_session st sid now =
        ((end_session st sid).1,
         Except.error (SMError.sessionNotFound "Session has expired")) := by
      simp [get_session, hsome, hexp]
    refine ⟨by rw [hget], fun hidle => ?_, fun hbusy => ?_⟩
    · rw [hget, end_session_idle st sid hidle]
      exact lookupA_removeA _ _
    · rw [hget, end_session_busy st sid hbusy]
      exact ⟨rfl, List.mem_cons_self sid _⟩

/-- Witness for C6: on an empty registry, `get` of an unknown id fails with
`SessionNotFound` and changes nothing. -/
theorem get_session_not_found_witness :
    lookupA ({ active_sessions := [], session_data := [], processing_files := fun _ => [],
               files := [], workspaces := [], pending_cleanups := [],
               metadata_saved := [] } : ManagerState).active_sessions "x" = none ∧
    get_session
        { active_sessions := [], session_data := [], processing_files := fun _ => [],
          files := [], workspaces := [], pending_cleanups := [], metadata_saved := [] }
        "x" 0 =
      ({ active_sessions := [], session_data := [], processing_files := fun _ => [],
         files := [], workspaces := [], pending_cleanups := [], metadata_saved := [] },
       Except.error (SMError.sessionNotFound "Session not found")) :=
  ⟨rfl,
   (get_session_not_found
      { active_sessions := [], session_data := [], processing_files := fun _ => [],
        files := [], workspaces := [], pending_cleanups := [], metadata_saved := [] }
      "x" 0).1 rfl⟩

/-- Claim C4: at 5 or more live registry entries `create` fails with the
concurrency-limit error and changes nothing (no workspace, no entry);
below the cap it yields a fresh `INITIAL` session expiring `now + 4` hours
later, a provisioned workspace and an empty `SessionData` record. -/
theorem create_session_limit (st : ManagerState) (ua : String) (now : Nat) (nid : String) :
    (st.active_sessions.length ≥ MAX_CONCURRENT_SESSIONS →
       create_session st ua now nid =
         (st, Except.error (SMError.concurrencyLimit "Maximum 5 concurrent sessions"))) ∧
    (st.active_sessions.length < MAX_CONCURRENT_SESSIONS →
       (create_session st ua now nid).2 = Except.ok nid ∧
       lookupA (create_session st ua now nid).1.active_sessions nid =
         some { session_id := nid, state := WorkflowState.INITIAL, created_at := now,
                last_updated := now, expires_at := now + SESSION_TIMEOUT, user_agent := ua,
                workspace_path := some nid } ∧
       nid ∈ (create_session st ua now nid).1.workspaces ∧
       lookupA (create_session st ua now nid).1.session_data nid = some SessionData.default) := by
  refine ⟨fun hfull => ?_, fun hroom => ?_⟩
  · simp only [create_session]
    rw [if_pos hfull]
  · have hneg : ¬ (st.active_sessions.length ≥ MAX_CONCURRENT_SESSIONS) :=
      Nat.not_le.mpr hroom
    simp only [create_session]
    rw [if_neg hneg]
    refine ⟨rfl, ?_, ?_, ?_⟩
    · simp only [lookupA, if_pos rfl]
      have h36 : (4 : Nat) * 3600 = SESSION_TIMEOUT := rfl
      simp [TutorialSession.create_new, h36]
    · by_cases hw : nid ∈ st.workspaces
      · simp only [if_pos hw]; exact hw
      · simp only [if_neg hw]; exact List.mem_cons_self nid _
    · simp [lookupA]

/-- Witness for C4: on an empty registry, `create` succeeds with a fresh
`INITIAL` session, its workspace and an empty data record. -/
theorem create_session_limit_witness :
    ({ active_sessions := [], session_data := [], processing_files := fun _ => [],
       files := [], workspaces := [], pending_cleanups := [],
       metadata_saved := [] } : ManagerState).active_sessions.length <
      MAX_CONCURRENT_SESSIONS ∧
    ((create_session
        { active_sessions := [], session_data := [], processing_files := fun _ => [],
          files := [], workspaces := [], pending_cleanups := [], metadata_saved := [] }
        "agent" 100 "n1").2 = Except.ok "n1" ∧
     lookupA (create_session
        { active_sessions := [], session_data := [], processing_files := fun _ => [],
          files := [], workspaces := [], pending_cleanups := [], metadata_saved := [] }
        "agent" 100 "n1").1.active_sessions "n1" =
       some { session_id := "n1", state := WorkflowState.INITIAL, created_at := 100,
              last_updated := 100, expires_at := 100 + SESSION_TIMEOUT, user_agent := "agent",
              workspace_path := some "n1" } ∧
     "n1" ∈ (create_session
        { active_sessions := [], session_data := [], processing_files := fun _ => [],
          files := [], workspaces := [], pending_cleanups := [], metadata_saved := [] }
        "agent" 100 "n1").1.workspaces ∧
     lookupA (create_session
        { active_sessions := [], session_data := [], processing_files := fun _ => [],
          files := [], workspaces := [], pending_cleanups := [], metadata_saved := [] }
        "agent" 100 "n1").1.session_data "n1" = some SessionData.default) :=
  ⟨by decide,
   (create_session_limit
      { active_sessions := [], session_data := [], processing_files := fun _ => [],
        files := [], workspaces := [], pending_cleanups := [], metadata_saved := [] }
      "agent" 100 "n1").2 (by decide)⟩

/-- The (stub) oldest-session eviction never changes the manager state,
so `check_storage_quota` returns its input state in every branch. -/
theorem check_storage_quota_fst (st : ManagerState) (sid : String) (n : Nat) :
    (check_storage_quota st sid n).1 = st := by
  simp only [check_storage_quota, cleanup_oldest_sessions]
  split
  · rfl
  · split
    · rfl
    · rfl

/-- Claim C5: `check_storage_quota` rejects a session-ceiling breach; on a
global-only breach it runs the oldest-session eviction and returns the
recheck of the global ceiling — and since the source eviction is a stub
that frees nothing, that recheck is necessarily `false`; otherwise it
accepts. -/
theorem check_storage_quota_spec (st : ManagerState) (sid : String) (size : Nat) :
    (session_storage_size st.files sid + size > MAX_SESSION_STORAGE →
       (check_storage_quota st sid size).2 = false) ∧
    (session_storage_size st.files sid + size ≤ MAX_SESSION_STORAGE →
     total_storage_size st.files + size > MAX_TOTAL_STORAGE →
       (check_storage_quota st sid size).2 =
         decide (total_storage_size (cleanup_oldest_sessions st size).1.files + size ≤
           MAX_TOTAL_STORAGE) ∧
       (check_storage_quota st sid size).2 = false) ∧
    (session_storage_size st.files sid + size ≤ MAX_SESSION_STORAGE →
     total_storage_size st.files + size ≤ MAX_TOTAL_STORAGE →
       (check_storage_quota st sid size).2 = true) := by
  refine ⟨fun h1 => ?_, fun h1 h2 => ?_, fun h1 h2 => ?_⟩
  · simp only [check_storage_quota]
    rw [if_pos h1]
  · simp only [check_storage_quota]
    rw [if_neg (Nat.not_lt.mpr h1), if_pos h2]
    refine ⟨rfl, ?_⟩
    simp only [cleanup_oldest_sessions, decide_eq_false_iff_not]
    exact Nat.not_le.mpr h2
  · simp only [check_storage_quota]
    rw [if_neg (Nat.not_lt.mpr h1), if_neg (Nat.not_lt.mpr h2)]

/-- Witness for C5: one 60 MiB file in the session plus a 60 MiB incoming
file breaches the 100 MiB session ceiling, so the check rejects. -/
theorem check_storage_quota_spec_witness :
    session_storage_size
        ({ active_sessions := [], session_data := [], processing_files := fun _ => [],
           files := [⟨"s", "files/audio/original/a.wav", 62914560⟩], workspaces := ["s"],
           pending_cleanups := [], metadata_saved := [] } : ManagerState).files "s" +
      62914560 > MAX_SESSION_STORAGE ∧
    (check_storage_quota
        { active_sessions := [], session_data := [], processing_files := fun _ => [],
          files := [⟨"s", "files/audio/original/a.wav", 62914560⟩], workspaces := ["s"],
          pending_cleanups := [], metadata_saved := [] } "s" 62914560).2 = false :=
  ⟨by decide,
   (check_storage_quota_spec
      { active_sessions := [], session_data := [], processing_files := fun _ => [],
        files := [⟨"s", "files/audio/original/a.wav", 62914560⟩], workspaces := ["s"],
        pending_cleanups := [], metadata_saved := [] } "s" 62914560).1 (by decide)⟩

/-- Claim C7: `expires_at` is strictly greater than `created_at` right
after creation (any positive timeout) and after any extension by a
positive number of hours under a monotone clock. -/
theorem expires_after_created (ua : String) (hours now : Nat) (sid : String)
    (s : TutorialSession) (ah now2 : Nat)
    (hpos : 0 < hours) (hmono : s.created_at ≤ now2) (hahpos : 0 < ah) :
    (TutorialSession.create_new ua hours now sid).expires_at >
      (TutorialSession.create_new ua hours now sid).created_at ∧
    (s.extend_expiration ah now2).expires_at > (s.extend_expiration ah now2).created_at := by
  constructor
  · simp only [TutorialSession.create_new]
    omega
  · simp only [TutorialSession.extend_expiration]
    omega

/-- Witness for C7 at the source defaults (4-hour timeout, 4-hour
extension, clock at 5 past a creation at 3). -/
theorem expires_after_created_witness :
    (0 < 4 ∧
      ({ session_id := "s", state := WorkflowState.INITIAL, created_at := 3,
         last_updated := 3, expires_at := 14403, user_agent := "",
         workspace_path := none } : TutorialSession).created_at ≤ 5) ∧
    ((TutorialSession.create_new "" 4 0 "s").expires_at >
       (TutorialSession.create_new "" 4 0 "s").created_at ∧
     (TutorialSession.extend_expiration
        { session_id := "s", state := WorkflowState.INITIAL, created_at := 3,
          last_updated := 3, expires_at := 14403, user_agent := "", workspace_path := none }
        4 5).expires_at >
       (TutorialSession.extend_expiration
        { session_id := "s", state := WorkflowState.INITIAL, created_at := 3,
          last_updated := 3, expires_at := 14403, user_agent := "", workspace_path := none }
        4 5).created_at) :=
  ⟨⟨by decide, by decide⟩,
   expires_after_created "" 4 0 "s"
     { session_id := "s", state := WorkflowState.INITIAL, created_at := 3,
       last_updated := 3, expires_at := 14403, user_agent := "", workspace_path := none }
     4 5 (by decide) (by decide) (by decide)⟩

/-- Claim C10: `get_session_data` never fails — an absent id silently
creates, stores and returns a fresh default `SessionData`, with no
existence or expiry check; a present id returns the stored record with no
state change. -/
theorem get_session_data_total (st : ManagerState) (sid : String) :
    (lookupA st.session_data sid = none →
       get_session_data st sid =
         ({ st with session_data := (sid, SessionData.default) :: st.session_data },
          SessionData.default) ∧
       lookupA (get_session_data st sid).1.session_data sid = some SessionData.default) ∧
    (∀ d, lookupA st.session_data sid = some d → get_session_data st sid = (st, d)) := by
  refine ⟨fun habs => ?_, fun d hd => ?_⟩
  · have h1 : get_session_data st sid =
        ({ st with session_data := (sid, SessionData.default) :: st.session_data },
         SessionData.default) := by
      simp [get_session_data, habs]
    refine ⟨h1, ?_⟩
    rw [h1]
    simp [lookupA]
  · simp [get_session_data, hd]

/-- Witness for C10: on a registry with no data record for the id, the
fresh default record is created, stored and returned. -/
theorem get_session_data_total_witness :
    lookupA ({ active_sessions := [], session_data := [], processing_files := fun _ => [],
               files := [], workspaces := [], pending_cleanups := [],
               metadata_saved := [] } : ManagerState).session_data "ghost" = none ∧
    (get_session_data
        { active_sessions := [], session_data := [], processing_files := fun _ => [],
          files := [], workspaces := [], pending_cleanups := [], metadata_saved := [] }
        "ghost" =
      ({ active_sessions := [], session_data := [("ghost", SessionData.default)],
         processing_files := fun _ => [], files := [], workspaces := [],
         pending_cleanups := [], metadata_saved := [] },
       SessionData.default) ∧
     lookupA (get_session_data
        { active_sessions := [], session_data := [], processing_files := fun _ => [],
          files := [], workspaces := [], pending_cleanups := [], metadata_saved := [] }
        "ghost").1.session_data "ghost" = some SessionData.default) :=
  ⟨rfl,
   (get_session_data_total
      { active_sessions := [], session_data := [], processing_files := fun _ => [],
        files := [], workspaces := [], pending_cleanups := [], metadata_saved := [] }
      "ghost").1 rfl⟩

/-- A status mid-processing, started at time 0; used to exercise repeated
completion updates. -/
def c8ps : ProcessingStatus :=
  { task_id := "t", status := ProcessingStatusType.processing, progress := 50,
    current_step := "transcribing", start_time := 0, estimated_completion := none,
    processing_time_seconds := none, error_message := none }

/-- Counterexample to C8 as stated: `processing_time_seconds` is NOT
frozen.  Completing at time 5 sets it to 5, but a second `progress = 100`
update at time 9 overwrites it with 9, and so does a later `mark_error`. -/
theorem processing_time_not_frozen :
    ((c8ps.update_progress 100 "done" 5).status = ProcessingStatusType.completed ∧
     (c8ps.update_progress 100 "done" 5).processing_time_seconds = some 5) ∧
    ((c8ps.update_progress 100 "done" 5).update_progress 100 "again" 9).processing_time_seconds =
      some 9 ∧
    ((c8ps.update_progress 100 "done" 5).mark_error "boom" 9).processing_time_seconds =
      some 9 := by
  decide

/-- Claim C8 (amended): a progress update with raw argument ≥ 100 forces
`status = completed` and sets `processing_time_seconds` to the elapsed
wall-clock seconds at that moment; an update below 100 touches neither;
`mark_error` forces `status = error` and likewise sets
`processing_time_seconds`.  The value is recomputed — not frozen — by any
later completing update or error transition. -/
theorem progress_completion_and_error (ps : ProcessingStatus) (p : Int)
    (step msg : String) (now : Nat) :
    (p ≥ 100 →
       (ps.update_progress p step now).status = ProcessingStatusType.completed ∧
       (ps.update_progress p step now).processing_time_seconds = some (now - ps.start_time)) ∧
    (p < 100 →
       (ps.update_progress p step now).status = ps.status ∧
       (ps.update_progress p step now).processing_time_seconds = ps.processing_time_seconds) ∧
    ((ps.mark_error msg now).status = ProcessingStatusType.error ∧
     (ps.mark_error msg now).processing_time_seconds = some (now - ps.start_time)) := by
  refine ⟨fun hge => ?_, fun hlt => ?_, ⟨rfl, rfl⟩⟩
  · simp only [ProcessingStatus.update_progress]
    rw [if_pos hge]
    exact ⟨rfl, rfl⟩
  · simp only [ProcessingStatus.update_progress]
    rw [if_neg (by omega)]
    exact ⟨rfl, rfl⟩

/-- Witness for C8: completing at 100 from the mid-processing status sets
`completed` and the elapsed time. -/
theorem progress_completion_and_error_witness :
    ((100 : Int) ≥ 100) ∧
    ((c8ps.update_progress 100 "done" 7).status = ProcessingStatusType.completed ∧
     (c8ps.update_progress 100 "done" 7).processing_time_seconds =
       some (7 - c8ps.start_time)) :=
  ⟨by decide, (progress_completion_and_error c8ps 100 "done" "m" 7).1 (by decide)⟩

/-- `true` exactly when a result is the `StorageQuotaExceededError` kind. -/
def isQuotaExceededResult : Except SMError String → Bool
  | Except.error (SMError.storageQuotaExceeded _) => true
  | _ => false

/-- The write loop on a stream of positive chunks whose remaining bytes
push `total_written` past the session ceiling aborts with the quota
message and leaves no destination file. -/
theorem stream_write_overflow (events : List StreamEvent) :
    ∀ (files : List StoredFile) (sid relpath : String) (written : Nat),
      written ≤ MAX_SESSION_STORAGE →
      (∀ e ∈ events, isPositiveChunk e = true) →
      written + sumBytes events > MAX_SESSION_STORAGE →
      (stream_write files sid relpath written events).2 =
        Except.error "File size exceeded during upload" ∧
      lookupFile (stream_write files sid relpath written events).1 sid relpath = none := by
  induction events with
  | nil =>
      intro files sid relpath written hw _ hbig
      exfalso
      simp only [sumBytes, Nat.add_zero] at hbig
      omega
  | cons e rest ih =>
      intro files sid relpath written hw hpos hbig
      cases e with
      | ioFault m =>
          exact absurd (hpos _ (List.mem_cons_self _ _)) (by simp [isPositiveChunk])
      | chunk n =>
          have hn : 0 < n := by
            have := hpos _ (List.mem_cons_self _ _)
            simpa [isPositiveChunk] using this
          simp only [stream_write]
          rw [if_neg (Nat.pos_iff_ne_zero.mp hn)]
          by_cases hover : written + n > MAX_SESSION_STORAGE
          · rw [if_pos hover]
            exact ⟨rfl, lookupFile_removeFile _ _ _⟩
          · rw [if_neg hover]
            apply ih
            · omega
            · exact fun e2 he2 => hpos e2 (List.mem_cons_of_mem _ he2)
            · have : sumBytes (StreamEvent.chunk n :: rest) = n + sumBytes rest := rfl
              omega

/-- Whenever the write block of `save_large_file` raises — quota breach or
I/O fault — the except handler removes any remaining partial file and
re-raises as `SessionStorageError` wrapping the original message. -/
theorem save_large_file_handler (st : ManagerState) (sid file_type filename : String)
    (stream : List StreamEvent) (msg : String) (files1 : List StoredFile)
    (hpre : (check_storage_quota st sid (estimate_stream_size stream)).2 = true)
    (hsw : stream_write (setFile st.files sid (dest_relpath file_type filename) 0) sid
        (dest_relpath file_type filename) 0 stream = (files1, Except.error msg)) :
    (save_large_file st sid stream file_type filename).2 =
      Except.error (SMError.sessionStorage ("Failed to save file: " ++ msg)) ∧
    lookupFile (save_large_file st sid stream file_type filename).1.files sid
      (dest_relpath file_type filename) = none := by
  have hfst := check_storage_quota_fst st sid (estimate_stream_size stream)
  simp only [save_large_file]
  rw [if_neg (by simp [hpre]), hfst, hsw]
  dsimp only
  by_cases hp : (lookupFile files1 sid (dest_relpath file_type filename)).isSome
  · rw [if_pos hp]
    exact ⟨rfl, lookupFile_removeFile _ _ _⟩
  · rw [if_neg hp]
    exact ⟨rfl, Option.not_isSome_iff_eq_none.mp hp⟩

/-- Claim C3 (amended): when the cumulative bytes of a stream of
successful, non-empty chunks exceed the 100 MiB session ceiling, the write
aborts at the offending chunk and the partial file is deleted, but the
error surfaces as `SessionStorageError` wrapping the internal quota
message (the mid-stream `StorageQuotaExceededError` is caught by the
handler), not as `StorageQuotaExceeded`; any other I/O failure of the
write likewise deletes the partial file and surfaces
`SessionStorageError`. -/
theorem save_large_file_storage_error (st : ManagerState)
    (sid file_type filename : String) (stream : List StreamEvent)
    (hpre : (check_storage_quota st sid (estimate_stream_size stream)).2 = true) :
    ((∀ e ∈ stream, isPositiveChunk e = true) →
       sumBytes stream > MAX_SESSION_STORAGE →
       (save_large_file st sid stream file_type filename).2 =
         Except.error (SMError.sessionStorage
           "Failed to save file: File size exceeded during upload") ∧
       lookupFile (save_large_file st sid stream file_type filename).1.files sid
         (dest_relpath file_type filename) = none) ∧
    (∀ msg files1,
       stream_write (setFile st.files sid (dest_relpath file_type filename) 0) sid
           (dest_relpath file_type filename) 0 stream = (files1, Except.error msg) →
       (save_large_file st sid stream file_type filename).2 =
         Except.error (SMError.sessionStorage ("Failed to save file: " ++ msg)) ∧
       lookupFile (save_large_file st sid stream file_type filename).1.files sid
         (dest_relpath file_type filename) = none) := by
  refine ⟨fun hpos hbig => ?_, fun msg files1 hsw =>
    save_large_file_handler st sid file_type filename stream msg files1 hpre hsw⟩
  have hover := stream_write_overflow stream
    (setFile st.files sid (dest_relpath file_type filename) 0) sid
    (dest_relpath file_type filename) 0 (Nat.zero_le _) hpos (by omega)
  have hsw : stream_write (setFile st.files sid (dest_relpath file_type filename) 0) sid
      (dest_relpath file_type filename) 0 stream =
      ((stream_write (setFile st.files sid (dest_relpath file_type filename) 0) sid
          (dest_relpath file_type filename) 0 stream).1,
       Except.error "File size exceeded during upload") := by
    rw [← hover.1]
  exact save_large_file_handler st sid file_type filename stream _ _ hpre hsw

/-- A 101 MiB stream delivered in 101 full 1 MiB chunks. -/
def c3stream : List StreamEvent := List.replicate 101 (StreamEvent.chunk 1048576)

/-- An empty manager with one provisioned, file-less session workspace. -/
def c3mgr : ManagerState :=
  { active_sessions := [], session_data := [], processing_files := fun _ => [],
    files := [], workspaces := ["s"], pending_cleanups := [], metadata_saved := [] }

/-- Counterexample to C3 as stated: a 101 MiB stream exceeds the 100 MiB
session ceiling, the partial file is deleted — but the call does NOT fail
with `StorageQuotaExceeded`: the handler wraps the internal quota error
into `SessionStorageError`. -/
theorem save_large_file_not_quota_error :
    sumBytes c3stream > MAX_SESSION_STORAGE ∧
    isQuotaExceededResult (save_large_file c3mgr "s" c3stream "audio" "f.bin").2 = false ∧
    (save_large_file c3mgr "s" c3stream "audio" "f.bin").2 =
      Except.error (SMError.sessionStorage
        "Failed to save file: File size exceeded during upload") ∧
    lookupFile (save_large_file c3mgr "s" c3stream "audio" "f.bin").1.files "s"
      (dest_relpath "audio" "f.bin") = none := by
  decide

/-- Witness for C3 (amended) on the same 101 MiB stream: the pre-check
passes (zero-size estimate), the call fails with the wrapping
`SessionStorageError` and no partial file remains. -/
theorem save_large_file_storage_error_witness :
    (check_storage_quota c3mgr "s" (estimate_stream_size c3stream)).2 = true ∧
    ((save_large_file c3mgr "s" c3stream "audio" "g.bin").2 =
       Except.error (SMError.sessionStorage
         "Failed to save file: File size exceeded during upload") ∧
     lookupFile (save_large_file c3mgr "s" c3stream "audio" "g.bin").1.files "s"
       (dest_relpath "audio" "g.bin") = none) :=
  ⟨by decide,
   (save_large_file_storage_error c3mgr "s" "audio" "g.bin" c3stream (by decide)).1
     (by decide) (by decide)⟩

end CliniPrompt
